import Mathlib

/-!
Shallow embedding of `src/validator/sawtooth_validator/journal/journal.py`
(the `Journal` orchestration class of the sawtooth validator).

The `Journal` class owns two FIFO queues (batch queue and block queue), a
size-1 `ThreadPoolExecutor`, a list of batch observers, and two nullable
collaborator handles (`_block_publisher`, `_chain_controller`).  Its methods
`start`, `stop`, `on_block_received`, `on_batch_received` and
`get_current_root` are modelled below as functions on an explicit state
`Journal`.  Each mutating method returns an `Outcome`: the state after the
call, the list of externally visible calls it made (its event trace), and
the Python exception it raised, if any (`none` on normal return).

Python exceptions relevant to this file are modelled by `PyErr`:
dereferencing a `None` handle (`AttributeError`) and an exception escaping
a batch observer's `notify_batch_pending`.

The collaborator classes `BlockPublisher` and `ChainController` are imported
by `journal.py` from modules of this repository that are not under `src/`
(`sawtooth_validator.journal.publisher`, `sawtooth_validator.journal.chain`).
They are modelled from the spec at their interface boundary only: an opaque
running flag toggled by their `start`/`stop` methods, plus (for the
ChainController) the `chain_head` accessor read by `get_current_root`,
stubbed as a head fixed at construction time (spec §8.7: "a stub Chain
Validator returning a fixed head").

Ghost construction counters (`publisher_constructions`, `pool_constructions`,
...) count how many times `journal.py` executes each construction site; they
are incremented exactly where the Python source constructs the corresponding
object and are read by no operation.
-/

/-- An opaque transaction batch: the orchestrator never inspects its content. -/
structure Batch where
  val : Nat
deriving DecidableEq

/-- An opaque block: the orchestrator never inspects its content. -/
structure Block where
  val : Nat
deriving DecidableEq

/-- A chain-head block record; the orchestration layer reads only its
`state_root_hash` field (in `get_current_root`). -/
structure BlockRec where
  state_root_hash : Nat
deriving DecidableEq

/-- The injected storage accessor (`block_store`): `journal.py` only reads its
`chain_head` attribute (at `_init_subprocesses` time) and returns the handle
itself from `get_block_store`. -/
structure BlockStore where
  chain_head : BlockRec
deriving DecidableEq

/-- Modelled from the spec: `BlockPublisher` (the Block Producer) lives in
`sawtooth_validator/journal/publisher.py`, which is not under `src/`.  Per
spec §4.1/§2 it is an opaque background activity with `start`/`stop`
methods, modelled as a running flag; the chain head injected at its
construction (`chain_head=self._block_store.chain_head`) is recorded. -/
structure BlockPublisher where
  running : Bool
  chain_head : BlockRec
deriving DecidableEq

/-- Modelled from the spec: `ChainController` (the Chain Validator) lives in
`sawtooth_validator/journal/chain.py`, which is not under `src/`.  Per spec
§4.1/§8.7 it is an opaque background activity with `start`/`stop` methods and
a `chain_head` accessor, stubbed as a head fixed when it is constructed. -/
structure ChainController where
  running : Bool
  chain_head : BlockRec
deriving DecidableEq

/-- The Python exceptions this embedding distinguishes. -/
inductive PyErr where
  /-- `AttributeError`: an attribute access on a handle that is `None`. -/
  | attributeNone : PyErr
  /-- The `NotRunningError` named by the spec; `journal.py` defines and
  raises no such exception, so no operation below ever produces it. -/
  | notRunning : PyErr
  /-- An exception escaping batch observer `idx`'s `notify_batch_pending`. -/
  | observerExc (idx : Nat) : PyErr
deriving DecidableEq

/-- Externally visible calls made by a `Journal` method, in program order. -/
inductive Event where
  /-- `self._batch_queue.put(batch)` -/
  | putBatch (b : Batch) : Event
  /-- `self._block_queue.put(block)` -/
  | putBlock (b : Block) : Event
  /-- `observer.notify_batch_pending(batch)` on observer number `idx`
  (0-based registration order) -/
  | notifyBatchPending (idx : Nat) (b : Batch) : Event
  /-- `self._executor_threadpool.shutdown(wait=True)` -/
  | shutdownPool : Event
  /-- construction of a `BlockPublisher` in `_init_subprocesses` -/
  | constructPublisher : Event
  /-- construction of a `ChainController` in `_init_subprocesses` -/
  | constructController : Event
  /-- `self._block_publisher.start()` -/
  | startPublisher : Event
  /-- `self._chain_controller.start()` -/
  | startController : Event
  /-- `self._block_publisher.stop()` -/
  | stopPublisher : Event
  /-- `self._chain_controller.stop()` -/
  | stopController : Event
deriving DecidableEq

/-- The state of a `Journal` instance: its fields as set in `__init__` and
mutated by `start`/`stop`, plus ghost construction counters.  Queues are
FIFO lists with the head of the list as the oldest element.  The batch
observers registered at construction are identified by their index
`0, ..., batch_obs_count - 1` in registration order; their behaviour is
external and is passed to `on_batch_received` as a function argument. -/
structure Journal where
  /-- `self._block_store` -/
  block_store : BlockStore
  /-- `self._block_publisher` (nullable handle) -/
  block_publisher : Option BlockPublisher
  /-- `self._chain_controller` (nullable handle) -/
  chain_controller : Option ChainController
  /-- contents of `self._batch_queue`, oldest first -/
  batch_queue : List Batch
  /-- contents of `self._block_queue`, oldest first -/
  block_queue : List Block
  /-- length of `self._batch_obs` -/
  batch_obs_count : Nat
  /-- whether `self._executor_threadpool.shutdown` has been called -/
  pool_shutdown : Bool
  /-- ghost: number of `BlockPublisher(...)` constructions executed -/
  publisher_constructions : Nat
  /-- ghost: number of `ChainController(...)` constructions executed -/
  controller_constructions : Nat
  /-- ghost: number of `ThreadPoolExecutor(1)` constructions executed -/
  pool_constructions : Nat
  /-- ghost: number of `queue.Queue()` constructions for `_batch_queue` -/
  batch_queue_constructions : Nat
  /-- ghost: number of `queue.Queue()` constructions for `_block_queue` -/
  block_queue_constructions : Nat
deriving DecidableEq

/-- Result of one `Journal` method call: the state after the call, the trace
of externally visible calls it made, and the exception it raised (if any).
In Python an exception aborts the method but leaves mutations already made
in place, so `state` is meaningful even when `err` is `some`. -/
structure Outcome where
  state : Journal
  events : List Event
  err : Option PyErr
deriving DecidableEq

/-- `Journal.__init__`: stores the injected dependencies, constructs the two
queues and the size-1 worker pool, and leaves both collaborator handles
`None`.  `batch_observers` is the number of registered batch observers
(`len(self._batch_obs)`). -/
def Journal.init (store : BlockStore) (batch_observers : Nat) : Journal :=
  { block_store := store
    block_publisher := none
    chain_controller := none
    batch_queue := []
    block_queue := []
    batch_obs_count := batch_observers
    pool_shutdown := false
    publisher_constructions := 0
    controller_constructions := 0
    pool_constructions := 1
    batch_queue_constructions := 1
    block_queue_constructions := 1 }

/-- `Journal._init_subprocesses`: constructs a fresh `BlockPublisher`
(injecting `chain_head=self._block_store.chain_head`) and a fresh
`ChainController` and assigns them to the two handles.  `ctrl_head` is the
stub Chain Validator's fixed chain head (external behaviour, see
`ChainController`). -/
def Journal.init_subprocesses (ctrl_head : BlockRec) (s : Journal) : Journal :=
  { s with
    block_publisher := some { running := false, chain_head := s.block_store.chain_head }
    chain_controller := some { running := false, chain_head := ctrl_head }
    publisher_constructions := s.publisher_constructions + 1
    controller_constructions := s.controller_constructions + 1 }

/-- `Journal.start`: if both collaborator handles are `None`, runs
`_init_subprocesses`; then calls `start()` on the block publisher and on the
chain controller (dereferencing either handle while it is `None` raises
`AttributeError`). -/
def Journal.start (ctrl_head : BlockRec) (s : Journal) : Outcome :=
  let su :=
    if s.block_publisher.isNone && s.chain_controller.isNone then
      (Journal.init_subprocesses ctrl_head s,
        [Event.constructPublisher, Event.constructController])
    else (s, [])
  match su.1.block_publisher with
  | none => { state := su.1, events := su.2, err := some PyErr.attributeNone }
  | some p =>
    let s2 : Journal := { su.1 with block_publisher := some { p with running := true } }
    match s2.chain_controller with
    | none =>
      { state := s2, events := su.2 ++ [Event.startPublisher]
        err := some PyErr.attributeNone }
    | some c =>
      { state := { s2 with chain_controller := some { c with running := true } }
        events := su.2 ++ [Event.startPublisher, Event.startController]
        err := none }

/-- `Journal.stop`: unconditionally calls
`self._executor_threadpool.shutdown(wait=True)`; then, if the block
publisher handle is present, stops it and clears the handle; then, if the
chain controller handle is present, stops it and clears the handle. -/
def Journal.stop (s : Journal) : Outcome :=
  let s1 : Journal := { s with pool_shutdown := true }
  let r2 :=
    match s1.block_publisher with
    | none => (s1, ([] : List Event))
    | some _ => ({ s1 with block_publisher := none }, [Event.stopPublisher])
  let r3 :=
    match r2.1.chain_controller with
    | none => (r2.1, ([] : List Event))
    | some _ => ({ r2.1 with chain_controller := none }, [Event.stopController])
  { state := r3.1
    events := Event.shutdownPool :: (r2.2 ++ r3.2)
    err := none }

/-- `Journal.on_block_received`: `self._block_queue.put(block)`. -/
def Journal.on_block_received (b : Block) (s : Journal) : Outcome :=
  { state := { s with block_queue := s.block_queue ++ [b] }
    events := [Event.putBlock b]
    err := none }

/-- The observer loop of `Journal.on_batch_received`:
`for observer in self._batch_obs: observer.notify_batch_pending(batch)`.
`raises idx b` is the external behaviour of observer `idx`: `true` when its
`notify_batch_pending b` raises.  The loop visits observers
`idx, idx + 1, ...` (`n` of them) in order; a raising observer is still
invoked, but its exception aborts the loop (there is no `try`/`except` in
the source), so later observers are not visited. -/
def notifyBatchObservers (raises : Nat → Batch → Bool) (b : Batch) :
    Nat → Nat → List Event × Option PyErr
  | _, 0 => ([], none)
  | idx, n + 1 =>
    if raises idx b then
      ([Event.notifyBatchPending idx b], some (PyErr.observerExc idx))
    else
      let r := notifyBatchObservers raises b (idx + 1) n
      (Event.notifyBatchPending idx b :: r.1, r.2)

/-- `Journal.on_batch_received`: `self._batch_queue.put(batch)`, then the
observer loop.  The enqueue happens before any observer runs, so it is in
place even when an observer raises. -/
def Journal.on_batch_received (raises : Nat → Batch → Bool) (b : Batch)
    (s : Journal) : Outcome :=
  let s1 : Journal := { s with batch_queue := s.batch_queue ++ [b] }
  let r := notifyBatchObservers raises b 0 s.batch_obs_count
  { state := s1, events := Event.putBatch b :: r.1, err := r.2 }

/-- `Journal.get_current_root`:
`return self._chain_controller.chain_head.state_root_hash`.  When the handle
is `None` this is an `AttributeError` (`None` has no attribute
`chain_head`). -/
def Journal.get_current_root (s : Journal) : Except PyErr Nat :=
  match s.chain_controller with
  | none => Except.error PyErr.attributeNone
  | some c => Except.ok c.chain_head.state_root_hash

/-- `Journal.get_block_store`: `return self._block_store`. -/
def Journal.get_block_store (s : Journal) : BlockStore :=
  s.block_store

/-- One public mutating call on a `Journal` (the lifecycle and ingestion
surface of spec §4.1), used to quantify over arbitrary call sequences. -/
inductive Op where
  | opStart : Op
  | opStop : Op
  | onBlock (b : Block) : Op
  | onBatch (b : Batch) : Op
deriving DecidableEq

/-- The state after one public call, discarding trace and exception (a Python
exception propagates to the caller but the object and its state survive,
so a later call starts from the mutated state). -/
def applyOp (ctrl_head : BlockRec) (raises : Nat → Batch → Bool) :
    Op → Journal → Journal
  | Op.opStart, s => (Journal.start ctrl_head s).state
  | Op.opStop, s => (Journal.stop s).state
  | Op.onBlock b, s => (Journal.on_block_received b s).state
  | Op.onBatch b, s => (Journal.on_batch_received raises b s).state

/-- The state after a sequence of public calls, first element first. -/
def runOps (ctrl_head : BlockRec) (raises : Nat → Batch → Bool) :
    List Op → Journal → Journal
  | [], s => s
  | op :: rest, s => runOps ctrl_head raises rest (applyOp ctrl_head raises op s)

/-- C1: a second `start()` without an intervening `stop()` constructs no
second BlockPublisher/ChainController pair (each ghost construction counter
stays at 1, and the second call emits no construction events), raises
nothing, and leaves the state exactly as it was after the first `start()`. -/
theorem start_twice_is_noop (store : BlockStore) (ctrl_head : BlockRec) (n : Nat) :
    (Journal.start ctrl_head (Journal.start ctrl_head (Journal.init store n)).state).state
      = (Journal.start ctrl_head (Journal.init store n)).state ∧
    (Journal.start ctrl_head (Journal.start ctrl_head (Journal.init store n)).state).err
      = none ∧
    (Journal.start ctrl_head (Journal.init store n)).state.publisher_constructions = 1 ∧
    (Journal.start ctrl_head (Journal.init store n)).state.controller_constructions = 1 ∧
    (Journal.start ctrl_head
        (Journal.start ctrl_head (Journal.init store n)).state).state.publisher_constructions
      = 1 ∧
    (Journal.start ctrl_head
        (Journal.start ctrl_head (Journal.init store n)).state).state.controller_constructions
      = 1 ∧
    (Journal.start ctrl_head (Journal.start ctrl_head (Journal.init store n)).state).events
      = [Event.startPublisher, Event.startController] :=
  ⟨rfl, rfl, rfl, rfl, rfl, rfl, rfl⟩

/-- C2: `stop()` never raises, leaves no collaborator handle behind, and a
second `stop()` right after also raises nothing and changes nothing: for
every state, stop-then-stop yields the state of a single stop. -/
theorem stop_twice_is_stop_once (s : Journal) :
    (Journal.stop s).err = none ∧
    (Journal.stop (Journal.stop s).state).err = none ∧
    (Journal.stop (Journal.stop s).state).state = (Journal.stop s).state ∧
    (Journal.stop s).state.block_publisher = none ∧
    (Journal.stop s).state.chain_controller = none := by
  obtain ⟨store, bp, cc, bq, blq, obs, ps, c1, c2, c3, c4, c5⟩ := s
  cases bp <;> cases cc <;> exact ⟨rfl, rfl, rfl, rfl, rfl⟩

/-- C9: every `stop()` makes its teardown calls in the fixed order: shut down
the worker pool first (always), then stop the block publisher when its
handle is present, then stop the chain controller when its handle is
present — the trace is exactly this sequence. -/
theorem stop_teardown_order (s : Journal) :
    (Journal.stop s).events
      = Event.shutdownPool ::
        ((if s.block_publisher.isSome then [Event.stopPublisher] else []) ++
          (if s.chain_controller.isSome then [Event.stopController] else [])) := by
  obtain ⟨store, bp, cc, bq, blq, obs, ps, c1, c2, c3, c4, c5⟩ := s
  cases bp <;> cases cc <;> rfl

/-- Helper: when none of the `n` observers starting at index `idx` raises,
the observer loop notifies each of them once, in index order, and returns
normally. -/
theorem notifyBatchObservers_no_raise (raises : Nat → Batch → Bool) (b : Batch) :
    ∀ (n idx : Nat), (∀ i, i < n → raises (idx + i) b = false) →
      notifyBatchObservers raises b idx n
        = ((List.range' idx n).map (fun i => Event.notifyBatchPending i b), none) := by
  intro n
  induction n with
  | zero => intro idx h; rfl
  | succ k ih =>
    intro idx h
    have h0 : raises idx b = false := by simpa using h 0 (Nat.succ_pos k)
    have hr := ih (idx + 1) (fun i hi => by
      rw [show idx + 1 + i = idx + (i + 1) by omega]
      exact h (i + 1) (by omega))
    simp [notifyBatchObservers, h0, hr, List.range'_succ]

/-- C3: when every registered observer returns normally,
`on_batch_received b` enqueues `b` and then notifies observers
`0, ..., count - 1` exactly once each, in registration order, before
returning (the trace is the enqueue followed by exactly these
notifications), and raises nothing. -/
theorem on_batch_received_notifies_in_order (raises : Nat → Batch → Bool) (b : Batch)
    (s : Journal) (h : ∀ i, i < s.batch_obs_count → raises i b = false) :
    (Journal.on_batch_received raises b s).events
      = Event.putBatch b ::
        (List.range s.batch_obs_count).map (fun i => Event.notifyBatchPending i b) ∧
    (Journal.on_batch_received raises b s).state.batch_queue = s.batch_queue ++ [b] ∧
    (Journal.on_batch_received raises b s).err = none := by
  have hr := notifyBatchObservers_no_raise raises b s.batch_obs_count 0
    (fun i hi => by simpa using h i hi)
  refine ⟨?_, rfl, ?_⟩
  · simp [Journal.on_batch_received, hr, List.range_eq_range']
  · simp [Journal.on_batch_received, hr]

/-- Witness for C3 at a journal with two observers, none raising. -/
theorem on_batch_received_notifies_in_order_witness :
    (∀ i, i < (Journal.init ⟨⟨7⟩⟩ 2).batch_obs_count →
      (fun (_ : Nat) (_ : Batch) => false) i ⟨5⟩ = false) ∧
    ((Journal.on_batch_received (fun _ _ => false) ⟨5⟩ (Journal.init ⟨⟨7⟩⟩ 2)).events
      = Event.putBatch ⟨5⟩ ::
        (List.range (Journal.init ⟨⟨7⟩⟩ 2).batch_obs_count).map
          (fun i => Event.notifyBatchPending i ⟨5⟩) ∧
    (Journal.on_batch_received (fun _ _ => false) ⟨5⟩ (Journal.init ⟨⟨7⟩⟩ 2)).state.batch_queue
      = (Journal.init ⟨⟨7⟩⟩ 2).batch_queue ++ [⟨5⟩] ∧
    (Journal.on_batch_received (fun _ _ => false) ⟨5⟩ (Journal.init ⟨⟨7⟩⟩ 2)).err = none) :=
  ⟨fun _ _ => rfl,
    on_batch_received_notifies_in_order (fun _ _ => false) ⟨5⟩ (Journal.init ⟨⟨7⟩⟩ 2)
      (fun _ _ => rfl)⟩

/-- Helper: when observer `idx + k` is the first raiser among the `n`
observers starting at `idx` (with `k < n`), the loop invokes observers
`idx, ..., idx + k` in order, then the exception of observer `idx + k`
escapes and the remaining observers are not visited. -/
theorem notifyBatchObservers_first_raise (raises : Nat → Batch → Bool) (b : Batch) :
    ∀ (k idx n : Nat), k < n → (∀ i, i < k → raises (idx + i) b = false) →
      raises (idx + k) b = true →
      notifyBatchObservers raises b idx n
        = ((List.range' idx (k + 1)).map (fun i => Event.notifyBatchPending i b),
            some (PyErr.observerExc (idx + k))) := by
  intro k
  induction k with
  | zero =>
    intro idx n hk h0 hr
    match n, hk with
    | n + 1, _ =>
      simp only [Nat.add_zero] at hr
      simp [notifyBatchObservers, hr, List.range'_succ]
  | succ k ih =>
    intro idx n hk h0 hr
    match n, hk with
    | n + 1, hk =>
      have hz : raises idx b = false := by simpa using h0 0 (Nat.succ_pos k)
      have hrec := ih (idx + 1) n (by omega)
        (fun i hi => by
          rw [show idx + 1 + i = idx + (i + 1) by omega]
          exact h0 (i + 1) (by omega))
        (by rw [show idx + 1 + k = idx + (k + 1) by omega]; exact hr)
      simp [notifyBatchObservers, hz, hrec, List.range'_succ]
      omega

/-- C4 counterexample: a journal with two registered observers where the
first observer's `notify_batch_pending` raises.  The exception is not
contained — `on_batch_received` propagates it to the caller — and the
second observer is never notified. -/
theorem observer_exception_not_contained :
    (Journal.on_batch_received (fun i _ => decide (i = 0)) ⟨0⟩
        (Journal.init ⟨⟨0⟩⟩ 2)).err ≠ none ∧
    Event.notifyBatchPending 1 ⟨0⟩
      ∉ (Journal.on_batch_received (fun i _ => decide (i = 0)) ⟨0⟩
          (Journal.init ⟨⟨0⟩⟩ 2)).events := by
  decide

/-- C4 amended: if observer `k` is the first registered observer whose
`notify_batch_pending b` raises, then `on_batch_received b` propagates that
observer's exception to the caller, observers `0, ..., k` are the only ones
invoked (later observers are skipped), and the batch is nonetheless already
enqueued. -/
theorem observer_exception_propagates (raises : Nat → Batch → Bool) (b : Batch)
    (s : Journal) (k : Nat) (hk : k < s.batch_obs_count)
    (hfirst : ∀ i, i < k → raises i b = false) (hr : raises k b = true) :
    (Journal.on_batch_received raises b s).err = some (PyErr.observerExc k) ∧
    (Journal.on_batch_received raises b s).events
      = Event.putBatch b ::
        (List.range (k + 1)).map (fun i => Event.notifyBatchPending i b) ∧
    (Journal.on_batch_received raises b s).state.batch_queue = s.batch_queue ++ [b] := by
  have h := notifyBatchObservers_first_raise raises b k 0 s.batch_obs_count hk
    (fun i hi => by simpa using hfirst i hi) (by simpa using hr)
  refine ⟨?_, ?_, rfl⟩ <;> simp [Journal.on_batch_received, h, List.range_eq_range']

/-- Witness for the amended C4: three observers, the middle one (index 1)
is the first raiser. -/
theorem observer_exception_propagates_witness :
    (1 < (Journal.init ⟨⟨4⟩⟩ 3).batch_obs_count) ∧
    (∀ i, i < 1 → (fun (i : Nat) (_ : Batch) => decide (1 ≤ i)) i ⟨9⟩ = false) ∧
    ((fun (i : Nat) (_ : Batch) => decide (1 ≤ i)) 1 ⟨9⟩ = true) ∧
    ((Journal.on_batch_received (fun i _ => decide (1 ≤ i)) ⟨9⟩
        (Journal.init ⟨⟨4⟩⟩ 3)).err = some (PyErr.observerExc 1) ∧
    (Journal.on_batch_received (fun i _ => decide (1 ≤ i)) ⟨9⟩
        (Journal.init ⟨⟨4⟩⟩ 3)).events
      = Event.putBatch ⟨9⟩ ::
        (List.range (1 + 1)).map (fun i => Event.notifyBatchPending i ⟨9⟩) ∧
    (Journal.on_batch_received (fun i _ => decide (1 ≤ i)) ⟨9⟩
        (Journal.init ⟨⟨4⟩⟩ 3)).state.batch_queue
      = (Journal.init ⟨⟨4⟩⟩ 3).batch_queue ++ [⟨9⟩]) :=
  ⟨by decide,
    fun i hi => by
      have hi0 : i = 0 := by omega
      subst hi0; rfl,
    rfl,
    observer_exception_propagates (fun i _ => decide (1 ≤ i)) ⟨9⟩
      (Journal.init ⟨⟨4⟩⟩ 3) 1 (by decide)
      (fun i hi => by
        have hi0 : i = 0 := by omega
        subst hi0; rfl)
      rfl⟩

/-- C5: whenever `on_batch_received b` raises (an observer failed), the
batch queue nonetheless already holds `b`: the enqueue precedes every
notification and no failure path removes it (the queue is exactly the old
queue with `b` appended). -/
theorem observer_exception_batch_still_enqueued (raises : Nat → Batch → Bool)
    (b : Batch) (s : Journal)
    (_h : (Journal.on_batch_received raises b s).err ≠ none) :
    b ∈ (Journal.on_batch_received raises b s).state.batch_queue ∧
    (Journal.on_batch_received raises b s).state.batch_queue = s.batch_queue ++ [b] :=
  ⟨by simp [Journal.on_batch_received], rfl⟩

/-- Witness for C5 at a journal with one observer that raises. -/
theorem observer_exception_batch_still_enqueued_witness :
    ((Journal.on_batch_received (fun _ _ => true) ⟨2⟩
        (Journal.init ⟨⟨0⟩⟩ 1)).err ≠ none) ∧
    ((⟨2⟩ : Batch) ∈ (Journal.on_batch_received (fun _ _ => true) ⟨2⟩
        (Journal.init ⟨⟨0⟩⟩ 1)).state.batch_queue ∧
    (Journal.on_batch_received (fun _ _ => true) ⟨2⟩
        (Journal.init ⟨⟨0⟩⟩ 1)).state.batch_queue
      = (Journal.init ⟨⟨0⟩⟩ 1).batch_queue ++ [⟨2⟩]) :=
  ⟨by decide,
    observer_exception_batch_still_enqueued (fun _ _ => true) ⟨2⟩
      (Journal.init ⟨⟨0⟩⟩ 1) (by decide)⟩

/-- C6 counterexample: before any `start()`, `get_current_root()` fails, but
with an `AttributeError` from dereferencing the `None` chain controller
handle — no `NotRunningError` exists in `journal.py`, so the failure is not
a `NotRunningError`. -/
theorem get_current_root_error_is_attribute_error :
    Journal.get_current_root (Journal.init ⟨⟨3⟩⟩ 0) ≠ Except.error PyErr.notRunning ∧
    Journal.get_current_root (Journal.init ⟨⟨3⟩⟩ 0) = Except.error PyErr.attributeNone :=
  ⟨fun h => PyErr.noConfusion (Except.error.inj h), rfl⟩

/-- C6 amended: `get_current_root()` fails — with an `AttributeError`
(`None` dereference), not a `NotRunningError` — whenever the chain
controller does not exist: before the first `start()` and after any
`stop()`; once started with a chain controller whose chain head is the
fixed stub `ctrl_head`, it returns that head's state root hash. -/
theorem get_current_root_lifecycle (store : BlockStore) (ctrl_head : BlockRec)
    (n : Nat) (s : Journal) :
    Journal.get_current_root (Journal.init store n) = Except.error PyErr.attributeNone ∧
    Journal.get_current_root (Journal.stop s).state = Except.error PyErr.attributeNone ∧
    Journal.get_current_root (Journal.start ctrl_head (Journal.init store n)).state
      = Except.ok ctrl_head.state_root_hash := by
  refine ⟨rfl, ?_, rfl⟩
  obtain ⟨store2, bp, cc, bq, blq, obs, ps, c1, c2, c3, c4, c5⟩ := s
  cases bp <;> cases cc <;> rfl

/-- C7: after a `stop()`, a subsequent `start()` constructs a fresh
publisher/controller pair (both ghost construction counters increment) and
raises nothing, while neither `stop()` nor `start()` touches the two queues:
every batch and block enqueued earlier and not yet consumed is still there,
in the same FIFO order. -/
theorem stop_then_start_rebuilds (ctrl_head : BlockRec) (s : Journal) :
    (Journal.stop s).state.batch_queue = s.batch_queue ∧
    (Journal.stop s).state.block_queue = s.block_queue ∧
    (Journal.start ctrl_head (Journal.stop s).state).state.batch_queue = s.batch_queue ∧
    (Journal.start ctrl_head (Journal.stop s).state).state.block_queue = s.block_queue ∧
    (Journal.start ctrl_head (Journal.stop s).state).state.publisher_constructions
      = s.publisher_constructions + 1 ∧
    (Journal.start ctrl_head (Journal.stop s).state).state.controller_constructions
      = s.controller_constructions + 1 ∧
    (Journal.start ctrl_head (Journal.stop s).state).err = none ∧
    (Journal.start ctrl_head (Journal.stop s).state).state.block_publisher
      = some { running := true, chain_head := s.block_store.chain_head } ∧
    (Journal.start ctrl_head (Journal.stop s).state).state.chain_controller
      = some { running := true, chain_head := ctrl_head } := by
  obtain ⟨store, bp, cc, bq, blq, obs, ps, c1, c2, c3, c4, c5⟩ := s
  cases bp <;> cases cc <;> exact ⟨rfl, rfl, rfl, rfl, rfl, rfl, rfl, rfl, rfl⟩

/-- Helper: no single public call changes the ghost construction counters of
the worker pool, the batch queue, or the block queue. -/
theorem applyOp_preserves_base_objects (ctrl_head : BlockRec)
    (raises : Nat → Batch → Bool) (op : Op) (s : Journal) :
    (applyOp ctrl_head raises op s).pool_constructions = s.pool_constructions ∧
    (applyOp ctrl_head raises op s).batch_queue_constructions
      = s.batch_queue_constructions ∧
    (applyOp ctrl_head raises op s).block_queue_constructions
      = s.block_queue_constructions := by
  obtain ⟨store, bp, cc, bq, blq, obs, ps, c1, c2, c3, c4, c5⟩ := s
  cases op with
  | opStart => cases bp <;> cases cc <;> exact ⟨rfl, rfl, rfl⟩
  | opStop => cases bp <;> cases cc <;> exact ⟨rfl, rfl, rfl⟩
  | onBlock b => exact ⟨rfl, rfl, rfl⟩
  | onBatch b => exact ⟨rfl, rfl, rfl⟩

/-- Helper: no sequence of public calls changes those counters. -/
theorem runOps_preserves_base_objects (ctrl_head : BlockRec)
    (raises : Nat → Batch → Bool) :
    ∀ (ops : List Op) (s : Journal),
      (runOps ctrl_head raises ops s).pool_constructions = s.pool_constructions ∧
      (runOps ctrl_head raises ops s).batch_queue_constructions
        = s.batch_queue_constructions ∧
      (runOps ctrl_head raises ops s).block_queue_constructions
        = s.block_queue_constructions := by
  intro ops
  induction ops with
  | nil => intro s; exact ⟨rfl, rfl, rfl⟩
  | cons op rest ih =>
    intro s
    have h1 := applyOp_preserves_base_objects ctrl_head raises op s
    have h2 := ih (applyOp ctrl_head raises op s)
    exact ⟨h2.1.trans h1.1, h2.2.1.trans h1.2.1, h2.2.2.trans h1.2.2⟩

/-- C8: the worker pool, batch queue and block queue are each constructed
exactly once, at `__init__` time, and after any sequence of `start`, `stop`,
`on_block_received`, `on_batch_received` calls each ghost construction
counter still reads 1: no operation ever reconstructs or replaces them. -/
theorem construction_once_invariant (store : BlockStore) (n : Nat)
    (ctrl_head : BlockRec) (raises : Nat → Batch → Bool) (ops : List Op) :
    (Journal.init store n).pool_constructions = 1 ∧
    (Journal.init store n).batch_queue_constructions = 1 ∧
    (Journal.init store n).block_queue_constructions = 1 ∧
    (runOps ctrl_head raises ops (Journal.init store n)).pool_constructions = 1 ∧
    (runOps ctrl_head raises ops (Journal.init store n)).batch_queue_constructions = 1 ∧
    (runOps ctrl_head raises ops (Journal.init store n)).block_queue_constructions = 1 := by
  have h := runOps_preserves_base_objects ctrl_head raises ops (Journal.init store n)
  exact ⟨rfl, rfl, rfl, h.1, h.2.1, h.2.2⟩

/-- Helper: no single public call resets the worker pool's shutdown flag. -/
theorem applyOp_preserves_pool_shutdown (ctrl_head : BlockRec)
    (raises : Nat → Batch → Bool) (op : Op) (s : Journal)
    (h : s.pool_shutdown = true) :
    (applyOp ctrl_head raises op s).pool_shutdown = true := by
  obtain ⟨store, bp, cc, bq, blq, obs, ps, c1, c2, c3, c4, c5⟩ := s
  cases h
  cases op with
  | opStart => cases bp <;> cases cc <;> rfl
  | opStop => cases bp <;> cases cc <;> rfl
  | onBlock b => rfl
  | onBatch b => rfl

/-- Helper: no sequence of public calls resets the shutdown flag. -/
theorem runOps_preserves_pool_shutdown (ctrl_head : BlockRec)
    (raises : Nat → Batch → Bool) :
    ∀ (ops : List Op) (s : Journal), s.pool_shutdown = true →
      (runOps ctrl_head raises ops s).pool_shutdown = true := by
  intro ops
  induction ops with
  | nil => intro s h; exact h
  | cons op rest ih =>
    intro s h
    exact ih (applyOp ctrl_head raises op s)
      (applyOp_preserves_pool_shutdown ctrl_head raises op s h)

/-- C10: every `stop()` shuts the worker pool down unconditionally — the
pool shutdown is the first call of its trace, for every state, including a
state in which `start()` was never called — and afterwards no sequence of
public calls (a later `start()` included) ever brings the pool back: the
shutdown flag stays set, so the pool accepts no new validation tasks. -/
theorem pool_shutdown_unconditional_and_permanent (ctrl_head : BlockRec)
    (raises : Nat → Batch → Bool) (s : Journal) (ops : List Op) :
    (Journal.stop s).events.head? = some Event.shutdownPool ∧
    (Journal.stop s).state.pool_shutdown = true ∧
    (runOps ctrl_head raises ops (Journal.stop s).state).pool_shutdown = true := by
  have hflag : (Journal.stop s).state.pool_shutdown = true := by
    obtain ⟨store, bp, cc, bq, blq, obs, ps, c1, c2, c3, c4, c5⟩ := s
    cases bp <;> cases cc <;> rfl
  exact ⟨rfl, hflag,
    runOps_preserves_pool_shutdown ctrl_head raises ops (Journal.stop s).state hflag⟩
